import Mathlib

set_option maxRecDepth 8000

/-! Shallow embedding of the deep-research workflow state machine
(`src/main.py` of Deep-Research-using-Agentic-AI).

External collaborators (the Tavily search tool and the three Mistral stage
chains) are modelled as an `Env` of fallible functions; the stage functions,
the router and the compiled graph's execution are translated from the source.
Each stage function returns the list of external calls it performed together
with either the mutated state or the first error raised (Python exceptions
propagate uncaught, discarding the run). -/

namespace DeepResearch

/-- Workflow stage tag (`AgentState` enum, main.py lines 22-26). -/
inductive AgentState
  | RESEARCH
  | SYNTHESIS
  | ANSWER
  | COMPLETE
deriving DecidableEq

/-- One raw search record as returned by the search tool; the three fields
read downstream are dictionary entries that may be absent (`result.get` in
main.py lines 196-198). -/
structure SearchResult where
  title : Option String
  url : Option String
  published_date : Option String
deriving DecidableEq

/-- A source record derived from a search record (main.py lines 192-200). -/
structure Source where
  title : String
  url : String
  published_date : String
deriving DecidableEq

/-- A `{role, content}` chat message record. -/
structure Message where
  role : String
  content : String
deriving DecidableEq

/-- The mutable workflow state (`GraphState`, main.py lines 38-57). -/
structure GraphState where
  query : String
  search_results : Option (List SearchResult)
  research_notes : Option String
  sources : List Source
  synthesized_research : Option String
  final_answer : Option String
  messages : List Message
  current_state : AgentState
deriving DecidableEq

/-- `GraphState.__init__` (main.py lines 48-57). -/
def GraphState.init (query : String) : GraphState :=
  { query := query,
    search_results := none,
    research_notes := none,
    sources := [],
    synthesized_research := none,
    final_answer := none,
    messages := [],
    current_state := AgentState.RESEARCH }

/-- An error raised by an external collaborator, or by the graph engine when
its recursion limit is exhausted. -/
inductive Err
  | failure (msg : String)
  | graphRecursionError
deriving DecidableEq

/-- The vars mapping passed to `researcher_chain.invoke` (main.py 184-190). -/
structure ResearcherVars where
  query : String
  search_results : Option (List SearchResult)
  messages : List Message

/-- The vars mapping passed to `synthesizer_chain.invoke` (main.py 216-223). -/
structure SynthesizerVars where
  query : String
  research_notes : Option String
  sources : List Source
  messages : List Message

/-- The vars mapping passed to `drafter_chain.invoke` (main.py 238-245). -/
structure DrafterVars where
  query : String
  synthesized_research : Option String
  sources : List Source
  messages : List Message

/-- The external collaborators: the search tool and the three stage chains.
Each may fail, modelling a raised exception. -/
structure Env where
  search_tool : String → Except Err (List SearchResult)
  researcher_chain : ResearcherVars → Except Err String
  synthesizer_chain : SynthesizerVars → Except Err String
  drafter_chain : DrafterVars → Except Err String

/-- One external call performed during a run, recorded in order. -/
inductive ExtCall
  | search (query : String)
  | researchLLM
  | synthesisLLM
  | draftingLLM
deriving DecidableEq

/-- Whether an external call is a search-tool invocation. -/
def isSearchCall : ExtCall → Bool
  | ExtCall.search _ => true
  | _ => false

/-- Python truthiness test of the guard `if not state["search_results"]`
(main.py line 173): both `None` and the empty list are falsy. -/
def searchResultsFalsy : Option (List SearchResult) → Bool
  | none => true
  | some [] => true
  | some (_ :: _) => false

/-- Source-record derivation with placeholder defaults for absent fields
(main.py lines 194-200). -/
def mkSource (result : SearchResult) : Source :=
  { title := result.title.getD "Unknown Title",
    url := result.url.getD "Unknown URL",
    published_date := result.published_date.getD "Unknown Date" }

/-- The initial-search guard block at the top of `run_research`
(main.py lines 173-180): when `search_results` is falsy, call the search
tool, store the results and append a system message. -/
def researchSearchPhase (env : Env) (state : GraphState) :
    List ExtCall × Except Err GraphState :=
  if searchResultsFalsy state.search_results then
    match env.search_tool state.query with
    | Except.error e => ([ExtCall.search state.query], Except.error e)
    | Except.ok search_results =>
      ([ExtCall.search state.query],
        Except.ok { state with
          search_results := some search_results,
          messages := state.messages ++
            [{ role := "system",
               content := "Performed initial search for: " ++ state.query }] })
  else ([], Except.ok state)

/-- `run_research` (main.py lines 170-209): optional initial search, the
researcher chain call, derivation of `sources` with placeholder defaults,
completion message, transition to SYNTHESIS.  After the guard block
`search_results` is always set (proved in `researchSearchPhase_ok`), so
Python's iteration over it is modelled with `Option.getD []`. -/
def run_research (env : Env) (state : GraphState) :
    List ExtCall × Except Err GraphState :=
  match researchSearchPhase env state with
  | (calls, Except.error e) => (calls, Except.error e)
  | (calls, Except.ok state1) =>
    match env.researcher_chain
        { query := state.query, search_results := state1.search_results,
          messages := state1.messages } with
    | Except.error e => (calls ++ [ExtCall.researchLLM], Except.error e)
    | Except.ok research_notes =>
      (calls ++ [ExtCall.researchLLM],
        Except.ok { state1 with
          research_notes := some research_notes,
          sources := (state1.search_results.getD []).map mkSource,
          messages := state1.messages ++
            [{ role := "assistant", content := "Research phase completed." }],
          current_state := AgentState.SYNTHESIS })

/-- `run_synthesis` (main.py lines 213-231). -/
def run_synthesis (env : Env) (state : GraphState) :
    List ExtCall × Except Err GraphState :=
  match env.synthesizer_chain
      { query := state.query, research_notes := state.research_notes,
        sources := state.sources, messages := state.messages } with
  | Except.error e => ([ExtCall.synthesisLLM], Except.error e)
  | Except.ok synthesized_research =>
    ([ExtCall.synthesisLLM],
      Except.ok { state with
        synthesized_research := some synthesized_research,
        messages := state.messages ++
          [{ role := "assistant", content := "Synthesis phase completed." }],
        current_state := AgentState.ANSWER })

/-- `run_answer_drafting` (main.py lines 235-253). -/
def run_answer_drafting (env : Env) (state : GraphState) :
    List ExtCall × Except Err GraphState :=
  match env.drafter_chain
      { query := state.query,
        synthesized_research := state.synthesized_research,
        sources := state.sources, messages := state.messages } with
  | Except.error e => ([ExtCall.draftingLLM], Except.error e)
  | Except.ok final_answer =>
    ([ExtCall.draftingLLM],
      Except.ok { state with
        final_answer := some final_answer,
        messages := state.messages ++
          [{ role := "assistant",
             content := "Answer drafting phase completed." }],
        current_state := AgentState.COMPLETE })

/-- `start_workflow` (main.py lines 257-264). -/
def start_workflow (state : GraphState) : GraphState :=
  { state with
    messages := state.messages ++
      [{ role := "system",
         content := "Starting research workflow for: " ++ state.query }] }

/-- The langgraph `END` sentinel node name. -/
def END_NODE : String := "__end__"

/-- `route_next_step` (main.py lines 268-278), evaluated on the state left by
the stage that just ran. -/
def route_next_step (state : GraphState) : String :=
  if state.current_state = AgentState.RESEARCH then "synthesis"
  else if state.current_state = AgentState.SYNTHESIS then "answer"
  else if state.current_state = AgentState.ANSWER then "complete"
  else END_NODE

/-- The four registered graph nodes (main.py lines 283-286). -/
inductive Node
  | start
  | research
  | synthesis
  | answer
deriving DecidableEq

/-- Lookup of a registered node by name; any other name (including
`"complete"` and `END`) designates no node. -/
def nodeNamed (name : String) : Option Node :=
  if name = "start" then some Node.start
  else if name = "research" then some Node.research
  else if name = "synthesis" then some Node.synthesis
  else if name = "answer" then some Node.answer
  else none

/-- Run one graph node's function on the state. -/
def runNode (env : Env) : Node → GraphState → List ExtCall × Except Err GraphState
  | Node.start, state => ([], Except.ok (start_workflow state))
  | Node.research, state => run_research env state
  | Node.synthesis, state => run_synthesis env state
  | Node.answer, state => run_answer_drafting env state

/-- Edge relation of the compiled graph (main.py lines 287-291): `start` has
the one fixed edge to `research`; the three LLM nodes have conditional edges
through `route_next_step`, where a returned name that designates no
registered node triggers nothing and the run terminates. -/
def nextNode : Node → GraphState → Option Node
  | Node.start, _ => some Node.research
  | Node.research, state => nodeNamed (route_next_step state)
  | Node.synthesis, state => nodeNamed (route_next_step state)
  | Node.answer, state => nodeNamed (route_next_step state)

deriving instance DecidableEq for Except

/-- Outcome of driving the workflow engine: the external calls in order, the
nodes entered (with the state observed at entry), and the final state or the
propagated error. -/
structure RunResult where
  calls : List ExtCall
  visits : List (Node × GraphState)
  out : Except Err GraphState
deriving DecidableEq

/-- The engine loop of the compiled graph: run the current node, then follow
its (conditional) edge; stop when no registered node is designated.  `fuel`
models langgraph's recursion limit. -/
def engineSteps (env : Env) : Nat → Node → GraphState → RunResult
  | 0, _, _ => { calls := [], visits := [], out := Except.error Err.graphRecursionError }
  | fuel + 1, node, state =>
    match runNode env node state with
    | (calls, Except.error e) =>
      { calls := calls, visits := [(node, state)], out := Except.error e }
    | (calls, Except.ok state1) =>
      match nextNode node state1 with
      | none => { calls := calls, visits := [(node, state)], out := Except.ok state1 }
      | some node2 =>
        let rest := engineSteps env fuel node2 state1
        { calls := calls ++ rest.calls,
          visits := (node, state) :: rest.visits,
          out := rest.out }

/-- The default langgraph recursion limit. -/
def recursionLimit : Nat := 25

/-- `deep_research_system.invoke` (main.py line 301): enter at the `start`
node. -/
def deep_research_system_invoke (env : Env) (state : GraphState) : RunResult :=
  engineSteps env recursionLimit Node.start state

/-- The result dictionary of `run_deep_research` (main.py lines 306-313). -/
structure ResearchSummary where
  query : String
  final_answer : Option String
  sources : List Source
  workflow_path : List String
deriving DecidableEq

/-- The `workflow_path` projection (main.py lines 310-312): contents of the
assistant-role messages, in order. -/
def assistantContents (messages : List Message) : List String :=
  (messages.filter (fun msg => msg.role = "assistant")).map Message.content

/-- `run_deep_research` (main.py lines 295-313). -/
def run_deep_research (env : Env) (query : String) : Except Err ResearchSummary :=
  match (deep_research_system_invoke env (GraphState.init query)).out with
  | Except.error e => Except.error e
  | Except.ok result =>
    Except.ok { query := result.query,
                final_answer := result.final_answer,
                sources := result.sources,
                workflow_path := assistantContents result.messages }

/-- An environment whose collaborators always succeed, given by total
functions: models a run in which no external call raises. -/
def Env.ofTotal (search : String → List SearchResult)
    (researcher : ResearcherVars → String)
    (synthesizer : SynthesizerVars → String)
    (drafter : DrafterVars → String) : Env :=
  { search_tool := fun q => Except.ok (search q),
    researcher_chain := fun v => Except.ok (researcher v),
    synthesizer_chain := fun v => Except.ok (synthesizer v),
    drafter_chain := fun v => Except.ok (drafter v) }

/-- The stub search record of the spec's concrete scenario. -/
def stubSearchResult : SearchResult :=
  { title := some "Paris", url := some "https://example.com/paris",
    published_date := none }

/-- The source record derived from `stubSearchResult`. -/
def parisSource : Source :=
  { title := "Paris", url := "https://example.com/paris",
    published_date := "Unknown Date" }

/-- A fully-stubbed successful environment. -/
def stubEnv : Env :=
  Env.ofTotal (fun _ => [stubSearchResult])
    (fun _ => "research notes stub")
    (fun _ => "synthesis stub")
    (fun _ => "final answer stub")

/-- A stubbed environment whose drafting chain always raises. -/
def failingDrafterEnv : Env :=
  { search_tool := fun _ => Except.ok [stubSearchResult],
    researcher_chain := fun _ => Except.ok "research notes stub",
    synthesizer_chain := fun _ => Except.ok "synthesis stub",
    drafter_chain := fun _ => Except.error (Err.failure "model failure") }

/-- A stubbed environment whose search tool always raises. -/
def failingSearchEnv : Env :=
  { search_tool := fun _ => Except.error (Err.failure "search failure"),
    researcher_chain := fun _ => Except.ok "research notes stub",
    synthesizer_chain := fun _ => Except.ok "synthesis stub",
    drafter_chain := fun _ => Except.ok "final answer stub" }

/-- The state produced by `run_research` on `GraphState.init "q"` under
`stubEnv`. -/
def stubResearchOut : GraphState :=
  { query := "q",
    search_results := some [stubSearchResult],
    research_notes := some "research notes stub",
    sources := [parisSource],
    synthesized_research := none,
    final_answer := none,
    messages := [{ role := "system", content := "Performed initial search for: q" },
                 { role := "assistant", content := "Research phase completed." }],
    current_state := AgentState.SYNTHESIS }

/-- The state produced by `run_synthesis` on `GraphState.init "q"` under
`stubEnv`. -/
def stubSynthesisOut : GraphState :=
  { query := "q",
    search_results := none,
    research_notes := none,
    sources := [],
    synthesized_research := some "synthesis stub",
    final_answer := none,
    messages := [{ role := "assistant", content := "Synthesis phase completed." }],
    current_state := AgentState.ANSWER }

/-- The state produced by `run_answer_drafting` on `GraphState.init "q"` under
`stubEnv`. -/
def stubAnswerOut : GraphState :=
  { query := "q",
    search_results := none,
    research_notes := none,
    sources := [],
    synthesized_research := none,
    final_answer := some "final answer stub",
    messages := [{ role := "assistant", content := "Answer drafting phase completed." }],
    current_state := AgentState.COMPLETE }

/-- The summary returned by `run_deep_research stubEnv "q"`. -/
def stubSummary : ResearchSummary :=
  { query := "q",
    final_answer := some "final answer stub",
    sources := [parisSource],
    workflow_path := ["Research phase completed.", "Answer drafting phase completed."] }

/-- A state whose `search_results` are already set to a nonempty list. -/
def setResultsState : GraphState :=
  { GraphState.init "q" with search_results := some [stubSearchResult] }

/-- The state produced by `run_research` on `setResultsState` under
`stubEnv`: no search is performed. -/
def setResearchOut : GraphState :=
  { query := "q",
    search_results := some [stubSearchResult],
    research_notes := some "research notes stub",
    sources := [parisSource],
    synthesized_research := none,
    final_answer := none,
    messages := [{ role := "assistant", content := "Research phase completed." }],
    current_state := AgentState.SYNTHESIS }

/-- A state whose `search_results` are set to the empty list, which the guard
treats as unset. -/
def emptyResultsState : GraphState :=
  { GraphState.init "q" with search_results := some [] }

theorem researchSearchPhase_ok (env : Env) (s : GraphState) (c : List ExtCall)
    (s1 : GraphState) (h : researchSearchPhase env s = (c, Except.ok s1)) :
    s1.query = s.query ∧ s1.research_notes = s.research_notes
      ∧ s1.sources = s.sources ∧ s1.synthesized_research = s.synthesized_research
      ∧ s1.final_answer = s.final_answer ∧ s1.current_state = s.current_state
      ∧ (∃ t, s1.messages = s.messages ++ t)
      ∧ ∃ rs, s1.search_results = some rs := by
  unfold researchSearchPhase at h
  split at h
  case isTrue hg =>
    split at h
    next e heq => simp at h
    next rs heq =>
      simp only [Prod.mk.injEq, Except.ok.injEq] at h
      obtain ⟨-, h2⟩ := h
      subst h2
      exact ⟨rfl, rfl, rfl, rfl, rfl, rfl, ⟨_, rfl⟩, ⟨rs, rfl⟩⟩
  case isFalse hg =>
    simp only [Prod.mk.injEq, Except.ok.injEq] at h
    obtain ⟨-, h2⟩ := h
    subst h2
    refine ⟨rfl, rfl, rfl, rfl, rfl, rfl, ⟨[], by simp⟩, ?_⟩
    revert hg
    cases hr : s.search_results with
    | none => simp [searchResultsFalsy]
    | some l =>
      cases l with
      | nil => simp [searchResultsFalsy]
      | cons r rest => exact fun _ => ⟨r :: rest, rfl⟩

theorem run_research_ok (env : Env) (s : GraphState) (c : List ExtCall)
    (s1 : GraphState) (h : run_research env s = (c, Except.ok s1)) :
    s1.query = s.query ∧ s1.current_state = AgentState.SYNTHESIS
      ∧ (∃ t, s1.messages = s.messages ++ t)
      ∧ (∃ rs, s1.search_results = some rs ∧ s1.sources = rs.map mkSource)
      ∧ s1.synthesized_research = s.synthesized_research
      ∧ s1.final_answer = s.final_answer
      ∧ s1.research_notes.isSome = true := by
  unfold run_research at h
  split at h
  next calls0 e heq => simp at h
  next calls0 sp heq =>
    obtain ⟨hq, hrn, hsrc, hsyn, hfin, hcur, ⟨t, hmsg⟩, ⟨rs, hsr⟩⟩ :=
      researchSearchPhase_ok env s calls0 sp heq
    split at h
    next e heq2 => simp at h
    next notes heq2 =>
      simp only [Prod.mk.injEq, Except.ok.injEq] at h
      obtain ⟨-, h2⟩ := h
      subst h2
      refine ⟨hq, rfl, ⟨t ++ [{ role := "assistant", content := "Research phase completed." }],
        by simp [hmsg]⟩, ⟨rs, by simpa using hsr, by simp [hsr]⟩, hsyn, hfin, rfl⟩

theorem run_synthesis_ok (env : Env) (s : GraphState) (c : List ExtCall)
    (s1 : GraphState) (h : run_synthesis env s = (c, Except.ok s1)) :
    s1.query = s.query ∧ s1.search_results = s.search_results
      ∧ s1.research_notes = s.research_notes ∧ s1.sources = s.sources
      ∧ s1.final_answer = s.final_answer
      ∧ s1.current_state = AgentState.ANSWER
      ∧ s1.messages = s.messages ++
          [{ role := "assistant", content := "Synthesis phase completed." }]
      ∧ s1.synthesized_research.isSome = true := by
  unfold run_synthesis at h
  split at h
  next e heq => simp at h
  next out heq =>
    simp only [Prod.mk.injEq, Except.ok.injEq] at h
    obtain ⟨-, h2⟩ := h
    subst h2
    exact ⟨rfl, rfl, rfl, rfl, rfl, rfl, rfl, rfl⟩

theorem run_answer_ok (env : Env) (s : GraphState) (c : List ExtCall)
    (s1 : GraphState) (h : run_answer_drafting env s = (c, Except.ok s1)) :
    s1.query = s.query ∧ s1.search_results = s.search_results
      ∧ s1.research_notes = s.research_notes ∧ s1.sources = s.sources
      ∧ s1.synthesized_research = s.synthesized_research
      ∧ s1.current_state = AgentState.COMPLETE
      ∧ s1.messages = s.messages ++
          [{ role := "assistant", content := "Answer drafting phase completed." }]
      ∧ s1.final_answer.isSome = true := by
  unfold run_answer_drafting at h
  split at h
  next e heq => simp at h
  next out heq =>
    simp only [Prod.mk.injEq, Except.ok.injEq] at h
    obtain ⟨-, h2⟩ := h
    subst h2
    exact ⟨rfl, rfl, rfl, rfl, rfl, rfl, rfl, rfl⟩

theorem runNode_ok_query (env : Env) (n : Node) (s : GraphState) (c : List ExtCall)
    (s1 : GraphState) (h : runNode env n s = (c, Except.ok s1)) :
    s1.query = s.query := by
  cases n with
  | start =>
    simp only [runNode, Prod.mk.injEq, Except.ok.injEq] at h
    obtain ⟨-, h2⟩ := h
    subst h2
    rfl
  | research => exact (run_research_ok env s c s1 h).1
  | synthesis => exact (run_synthesis_ok env s c s1 h).1
  | answer => exact (run_answer_ok env s c s1 h).1

theorem engineSteps_ok_query (env : Env) :
    ∀ (fuel : Nat) (n : Node) (s s1 : GraphState),
      (engineSteps env fuel n s).out = Except.ok s1 → s1.query = s.query := by
  intro fuel
  induction fuel with
  | zero =>
    intro n s s1 h
    simp [engineSteps] at h
  | succ fuel ih =>
    intro n s s1 h
    unfold engineSteps at h
    split at h
    next calls e heq => simp at h
    next calls sA heq =>
      split at h
      · simp only [Except.ok.injEq] at h
        subst h
        exact runNode_ok_query env n s calls sA heq
      next n2 hn =>
        simp only [] at h
        exact (ih n2 sA s1 h).trans (runNode_ok_query env n s calls sA heq)

theorem engineSteps_start_step (env : Env) (fuel : Nat) (s : GraphState) :
    engineSteps env (fuel + 1) Node.start s =
      { calls := (engineSteps env fuel Node.research (start_workflow s)).calls,
        visits := (Node.start, s) ::
          (engineSteps env fuel Node.research (start_workflow s)).visits,
        out := (engineSteps env fuel Node.research (start_workflow s)).out } := rfl

theorem engineSteps_error_step (env : Env) (fuel : Nat) (n : Node) (s : GraphState)
    (calls : List ExtCall) (e : Err)
    (hrun : runNode env n s = (calls, Except.error e)) :
    engineSteps env (fuel + 1) n s =
      { calls := calls, visits := [(n, s)], out := Except.error e } := by
  unfold engineSteps
  rw [hrun]

theorem total_run_calls (search : String → List SearchResult)
    (researcher : ResearcherVars → String) (synthesizer : SynthesizerVars → String)
    (drafter : DrafterVars → String) (q : String) :
    (deep_research_system_invoke (Env.ofTotal search researcher synthesizer drafter)
        (GraphState.init q)).calls
      = [ExtCall.search q, ExtCall.researchLLM, ExtCall.draftingLLM] := rfl

/-- C2: after a successful research stage the state's `search_results` are
set, `sources` has exactly one record per search record, and the record at
any index carries the upstream title, url and published date when present and
the placeholder strings "Unknown Title", "Unknown URL", "Unknown Date"
otherwise; no error is possible for a missing field. -/
theorem research_sources_one_per_result (env : Env) (s : GraphState)
    (calls : List ExtCall) (s1 : GraphState) (i : Nat)
    (h : run_research env s = (calls, Except.ok s1)) :
    ∃ rs, s1.search_results = some rs
      ∧ s1.sources.length = rs.length
      ∧ s1.sources.get? i = (rs.get? i).map (fun result =>
          { title := result.title.getD "Unknown Title",
            url := result.url.getD "Unknown URL",
            published_date := result.published_date.getD "Unknown Date" }) := by
  obtain ⟨-, -, -, ⟨rs, hsr, hsrc⟩, -, -, -⟩ := run_research_ok env s calls s1 h
  refine ⟨rs, hsr, by simp [hsrc], ?_⟩
  rw [hsrc, List.get?_map]
  rfl

/-- C2 witness: the concrete research-stage output on the stub run. -/
theorem research_sources_one_per_result_witness :
    ∃ rs, stubResearchOut.search_results = some rs
      ∧ stubResearchOut.sources.length = rs.length
      ∧ stubResearchOut.sources.get? 0 = (rs.get? 0).map (fun result =>
          { title := result.title.getD "Unknown Title",
            url := result.url.getD "Unknown URL",
            published_date := result.published_date.getD "Unknown Date" }) :=
  research_sources_one_per_result stubEnv (GraphState.init "q")
    [ExtCall.search "q", ExtCall.researchLLM] stubResearchOut 0 (by decide)

/-- C4: the result of a successful `run_deep_research` on a non-empty query
carries exactly the input query, and no stage function modifies the `query`
field of the state it is given. -/
theorem query_preserved (env : Env) (q : String) (hq : q ≠ "")
    (summary : ResearchSummary) (h : run_deep_research env q = Except.ok summary)
    (s : GraphState) (c1 c2 c3 : List ExtCall) (s1 s2 s3 : GraphState)
    (h1 : run_research env s = (c1, Except.ok s1))
    (h2 : run_synthesis env s = (c2, Except.ok s2))
    (h3 : run_answer_drafting env s = (c3, Except.ok s3)) :
    summary.query = q ∧ (start_workflow s).query = s.query
      ∧ s1.query = s.query ∧ s2.query = s.query ∧ s3.query = s.query := by
  refine ⟨?_, rfl, (run_research_ok env s c1 s1 h1).1,
    (run_synthesis_ok env s c2 s2 h2).1, (run_answer_ok env s c3 s3 h3).1⟩
  unfold run_deep_research at h
  split at h
  next e heq => simp at h
  next result heq =>
    simp only [Except.ok.injEq] at h
    subst h
    exact engineSteps_ok_query env recursionLimit Node.start (GraphState.init q) result heq

/-- C4 witness: the stub run instantiates all hypotheses. -/
theorem query_preserved_witness :
    stubSummary.query = "q"
      ∧ (start_workflow (GraphState.init "q")).query = (GraphState.init "q").query
      ∧ stubResearchOut.query = (GraphState.init "q").query
      ∧ stubSynthesisOut.query = (GraphState.init "q").query
      ∧ stubAnswerOut.query = (GraphState.init "q").query :=
  query_preserved stubEnv "q" (by decide) stubSummary (by decide)
    (GraphState.init "q") [ExtCall.search "q", ExtCall.researchLLM]
    [ExtCall.synthesisLLM] [ExtCall.draftingLLM]
    stubResearchOut stubSynthesisOut stubAnswerOut
    (by decide) (by decide) (by decide)

/-- C7: every stage function leaves the existing messages unchanged and in
order, only appending new records at the end. -/
theorem messages_append_only (env : Env) (s : GraphState)
    (c1 c2 c3 : List ExtCall) (s1 s2 s3 : GraphState)
    (h1 : run_research env s = (c1, Except.ok s1))
    (h2 : run_synthesis env s = (c2, Except.ok s2))
    (h3 : run_answer_drafting env s = (c3, Except.ok s3)) :
    ((start_workflow s).messages = s.messages ++
        [{ role := "system",
           content := "Starting research workflow for: " ++ s.query }])
      ∧ (∃ t, s1.messages = s.messages ++ t)
      ∧ s2.messages = s.messages ++
          [{ role := "assistant", content := "Synthesis phase completed." }]
      ∧ s3.messages = s.messages ++
          [{ role := "assistant", content := "Answer drafting phase completed." }] :=
  ⟨rfl, (run_research_ok env s c1 s1 h1).2.2.1,
    (run_synthesis_ok env s c2 s2 h2).2.2.2.2.2.2.1,
    (run_answer_ok env s c3 s3 h3).2.2.2.2.2.2.1⟩

/-- C7 witness: the stub run instantiates all hypotheses. -/
theorem messages_append_only_witness :
    ((start_workflow (GraphState.init "q")).messages = (GraphState.init "q").messages ++
        [{ role := "system",
           content := "Starting research workflow for: " ++ (GraphState.init "q").query }])
      ∧ (∃ t, stubResearchOut.messages = (GraphState.init "q").messages ++ t)
      ∧ stubSynthesisOut.messages = (GraphState.init "q").messages ++
          [{ role := "assistant", content := "Synthesis phase completed." }]
      ∧ stubAnswerOut.messages = (GraphState.init "q").messages ++
          [{ role := "assistant", content := "Answer drafting phase completed." }] :=
  messages_append_only stubEnv (GraphState.init "q")
    [ExtCall.search "q", ExtCall.researchLLM] [ExtCall.synthesisLLM] [ExtCall.draftingLLM]
    stubResearchOut stubSynthesisOut stubAnswerOut
    (by decide) (by decide) (by decide)

/-- C5: a run with successful collaborators performs exactly one search, and
a research entry whose `search_results` are already set (nonempty) performs
no search and leaves `search_results` unchanged. -/
theorem search_invoked_once (search : String → List SearchResult)
    (researcher : ResearcherVars → String) (synthesizer : SynthesizerVars → String)
    (drafter : DrafterVars → String) (q : String)
    (env : Env) (s : GraphState) (r : SearchResult) (rs : List SearchResult)
    (hset : s.search_results = some (r :: rs))
    (c : List ExtCall) (s1 : GraphState)
    (hok : run_research env s = (c, Except.ok s1)) :
    ((deep_research_system_invoke (Env.ofTotal search researcher synthesizer drafter)
        (GraphState.init q)).calls.countP isSearchCall = 1)
      ∧ (run_research env s).1.countP isSearchCall = 0
      ∧ s1.search_results = s.search_results := by
  have hphase : researchSearchPhase env s = ([], Except.ok s) := by
    unfold researchSearchPhase
    rw [hset]
    rfl
  have hred : run_research env s =
      (match env.researcher_chain
          { query := s.query, search_results := s.search_results,
            messages := s.messages } with
        | Except.error e => ([ExtCall.researchLLM], Except.error e)
        | Except.ok research_notes =>
          ([ExtCall.researchLLM],
            Except.ok { s with
              research_notes := some research_notes,
              sources := List.map mkSource (s.search_results.getD []),
              messages := s.messages ++
                [{ role := "assistant", content := "Research phase completed." }],
              current_state := AgentState.SYNTHESIS })) := by
    unfold run_research
    rw [hphase]
    rfl
  refine ⟨by rw [total_run_calls]; rfl, ?_, ?_⟩
  · rw [hred]
    cases hc : env.researcher_chain
        { query := s.query, search_results := s.search_results,
          messages := s.messages } with
    | error e => simp [hc, isSearchCall]
    | ok notes => simp [hc, isSearchCall]
  · rw [hred] at hok
    cases hc : env.researcher_chain
        { query := s.query, search_results := s.search_results,
          messages := s.messages } with
    | error e => rw [hc] at hok; simp at hok
    | ok notes =>
      rw [hc] at hok
      simp only [Prod.mk.injEq, Except.ok.injEq] at hok
      obtain ⟨-, hok2⟩ := hok
      subst hok2
      rfl

/-- C5 witness: the concrete stub run and a concrete already-set state. -/
theorem search_invoked_once_witness :
    ((deep_research_system_invoke stubEnv (GraphState.init "q")).calls.countP
        isSearchCall = 1)
      ∧ (run_research stubEnv setResultsState).1.countP isSearchCall = 0
      ∧ setResearchOut.search_results = setResultsState.search_results :=
  search_invoked_once (fun _ => [stubSearchResult]) (fun _ => "research notes stub")
    (fun _ => "synthesis stub") (fun _ => "final answer stub") "q"
    stubEnv setResultsState stubSearchResult [] (by decide)
    [ExtCall.researchLLM] setResearchOut (by decide)

/-- C8: when the search tool raises, the run aborts with that error before
any stage chain is invoked, and the error propagates out of
`run_deep_research`. -/
theorem search_failure_aborts (env : Env) (q : String) (e : Err)
    (hs : env.search_tool q = Except.error e) :
    (deep_research_system_invoke env (GraphState.init q)).calls = [ExtCall.search q]
      ∧ (deep_research_system_invoke env (GraphState.init q)).out = Except.error e
      ∧ run_deep_research env q = Except.error e := by
  have hres : run_research env (start_workflow (GraphState.init q)) =
      ([ExtCall.search q], Except.error e) := by
    have hphase : researchSearchPhase env (start_workflow (GraphState.init q)) =
        ([ExtCall.search q], Except.error e) := by
      unfold researchSearchPhase
      rw [show (start_workflow (GraphState.init q)).search_results = none from rfl]
      rw [show (start_workflow (GraphState.init q)).query = q from rfl]
      rw [hs]
      rfl
    unfold run_research
    rw [hphase]
  have hrest : engineSteps env 24 Node.research (start_workflow (GraphState.init q)) =
      { calls := [ExtCall.search q],
        visits := [(Node.research, start_workflow (GraphState.init q))],
        out := Except.error e } := by
    rw [show (24 : Nat) = 23 + 1 from rfl]
    exact engineSteps_error_step env 23 Node.research _ [ExtCall.search q] e hres
  have hinv : deep_research_system_invoke env (GraphState.init q) =
      { calls := [ExtCall.search q],
        visits := [(Node.start, GraphState.init q),
                   (Node.research, start_workflow (GraphState.init q))],
        out := Except.error e } := by
    show engineSteps env 25 Node.start (GraphState.init q) = _
    rw [show (25 : Nat) = 24 + 1 from rfl, engineSteps_start_step, hrest]
  refine ⟨by rw [hinv], by rw [hinv], ?_⟩
  unfold run_deep_research
  rw [hinv]

/-- C8 witness: a concrete environment whose search tool raises. -/
theorem search_failure_aborts_witness :
    (deep_research_system_invoke failingSearchEnv (GraphState.init "q")).calls
        = [ExtCall.search "q"]
      ∧ (deep_research_system_invoke failingSearchEnv (GraphState.init "q")).out
          = Except.error (Err.failure "search failure")
      ∧ run_deep_research failingSearchEnv "q"
          = Except.error (Err.failure "search failure") :=
  search_failure_aborts failingSearchEnv "q" (Err.failure "search failure") (by decide)

/-- C10: a fresh state has `sources` and `messages` present but empty, the
optional fields absent and `current_state = RESEARCH`; the single-search
guard tests Python falsiness, so an empty search-result list does not count
as set and the research stage searches again on it. -/
theorem init_state_and_guard (q : String) (env : Env) (s : GraphState)
    (r : SearchResult) (rs : List SearchResult)
    (hempty : s.search_results = some []) :
    (GraphState.init q).query = q
      ∧ (GraphState.init q).search_results = none
      ∧ (GraphState.init q).research_notes = none
      ∧ (GraphState.init q).sources = []
      ∧ (GraphState.init q).synthesized_research = none
      ∧ (GraphState.init q).final_answer = none
      ∧ (GraphState.init q).messages = []
      ∧ (GraphState.init q).current_state = AgentState.RESEARCH
      ∧ searchResultsFalsy none = true
      ∧ searchResultsFalsy (some []) = true
      ∧ searchResultsFalsy (some (r :: rs)) = false
      ∧ (run_research env s).1.countP isSearchCall = 1 := by
  refine ⟨rfl, rfl, rfl, rfl, rfl, rfl, rfl, rfl, rfl, rfl, rfl, ?_⟩
  have hguard : searchResultsFalsy s.search_results = true := by rw [hempty]; rfl
  unfold run_research researchSearchPhase
  rw [hguard]
  cases hsearch : env.search_tool s.query with
  | error e => simp [hsearch, isSearchCall]
  | ok rs2 =>
    simp only [hsearch, if_true]
    split
    · simp [isSearchCall]
    · simp [isSearchCall]

/-- C10 witness: a concrete state carrying an empty search-result list. -/
theorem init_state_and_guard_witness :
    (GraphState.init "q").query = "q"
      ∧ (GraphState.init "q").search_results = none
      ∧ (GraphState.init "q").research_notes = none
      ∧ (GraphState.init "q").sources = []
      ∧ (GraphState.init "q").synthesized_research = none
      ∧ (GraphState.init "q").final_answer = none
      ∧ (GraphState.init "q").messages = []
      ∧ (GraphState.init "q").current_state = AgentState.RESEARCH
      ∧ searchResultsFalsy none = true
      ∧ searchResultsFalsy (some []) = true
      ∧ searchResultsFalsy (some (stubSearchResult :: [])) = false
      ∧ (run_research stubEnv emptyResultsState).1.countP isSearchCall = 1 :=
  init_state_and_guard "q" stubEnv emptyResultsState stubSearchResult [] (by decide)

/-- C1 (code bug shown on a concrete run): the engine enters only the
`start`, `research` and `answer` nodes — the `synthesis` node is never
entered, because each stage advances `current_state` before the router reads
it, so the router double-advances — while the run still ends at COMPLETE and
`run_deep_research` returns the projection of the final state. -/
theorem run_skips_synthesis_node :
    ((deep_research_system_invoke stubEnv
        (GraphState.init "What is the capital of France?")).visits.map Prod.fst
      = [Node.start, Node.research, Node.answer])
      ∧ ((deep_research_system_invoke stubEnv
          (GraphState.init "What is the capital of France?")).out.map
            GraphState.current_state = Except.ok AgentState.COMPLETE)
      ∧ run_deep_research stubEnv "What is the capital of France?"
          = Except.ok { query := "What is the capital of France?",
                        final_answer := some "final answer stub",
                        sources := [parisSource],
                        workflow_path := ["Research phase completed.",
                                          "Answer drafting phase completed."] } :=
  ⟨by decide, by decide, by decide⟩

/-- C3 (code bug shown on a concrete run): `workflow_path` does equal the
assistant-message contents of the final state, but on a successful run it has
length 2, not 3 — the synthesis completion notice is missing because the
synthesis stage never runs. -/
theorem workflow_path_has_two_entries :
    ((run_deep_research stubEnv "q").map ResearchSummary.workflow_path
      = Except.ok ["Research phase completed.", "Answer drafting phase completed."])
      ∧ ((deep_research_system_invoke stubEnv (GraphState.init "q")).out.map
          (fun s => assistantContents s.messages)
        = Except.ok ["Research phase completed.", "Answer drafting phase completed."]) :=
  ⟨by decide, by decide⟩

/-- C6 (code bug shown on a concrete run): the tags observed at node entry
are start@RESEARCH, research@RESEARCH, answer@SYNTHESIS — the synthesis stage
is never entered, the ANSWER tag is never observed, and the tag jumps from
SYNTHESIS straight to COMPLETE inside the drafting stage. -/
theorem current_state_skips_answer_tag :
    ((deep_research_system_invoke stubEnv (GraphState.init "q")).visits.map
        (fun p => (p.fst, p.snd.current_state))
      = [(Node.start, AgentState.RESEARCH), (Node.research, AgentState.RESEARCH),
         (Node.answer, AgentState.SYNTHESIS)])
      ∧ ((deep_research_system_invoke stubEnv (GraphState.init "q")).out.map
          GraphState.current_state = Except.ok AgentState.COMPLETE) :=
  ⟨by decide, by decide⟩

/-- C9 (code bug shown on a concrete run): when the drafting chain raises,
the error propagates and at the failure point `research_notes` is populated
and `final_answer` unset with no drafting-completion message, but
`synthesized_research` is still absent — the synthesis stage never ran. -/
theorem drafting_failure_state :
    (run_deep_research failingDrafterEnv "q" = Except.error (Err.failure "model failure"))
      ∧ ((deep_research_system_invoke failingDrafterEnv (GraphState.init "q")).visits.map
          (fun p => (p.fst, p.snd.research_notes, p.snd.synthesized_research,
            p.snd.final_answer))
        = [(Node.start, none, none, none), (Node.research, none, none, none),
           (Node.answer, some "research notes stub", none, none)])
      ∧ ((deep_research_system_invoke failingDrafterEnv (GraphState.init "q")).visits.map
          (fun p => p.snd.messages.countP
            (fun m => m.content == "Answer drafting phase completed."))
        = [0, 0, 0]) :=
  ⟨by decide, by decide, by decide⟩

end DeepResearch
